import Mathlib

/-!
# TerraTraceAI Detection Poller — shallow embedding

A shallow embedding of the stateful logic of `src/app/page.tsx`
(the "Detection Poller" of the spec): the YouTube video-id extraction
utility `getYoutubeVideoId`, the detection call `handleDetect`, the
video loader `loadVideo`, the manual actions `triggerMockAlert` and
`resetStatus`, and the polling `useEffect` timer lifecycle.

React state is modelled as an explicit record `AppState`; the
environment configuration (`TRIO_API_URL`, `TRIO_API_KEY`,
`DETECT_PROMPT`) as a record `Config`; the outcome of the single
`fetch`/`json()` round trip as an inductive `FetchOutcome`.  A
function that may issue a network request returns the request it
issued as an `Option Request`, so "performs no network call" is the
statement that this component is `none`.
-/

namespace TerraTrace

/-- JS `\w` character class: `[A-Za-z0-9_]` (ASCII only). -/
def isWordChar (c : Char) : Bool :=
  (('A' ≤ c && c ≤ 'Z') || ('a' ≤ c && c ≤ 'z') || ('0' ≤ c && c ≤ '9') || c = '_')

/-- JS regex line terminators, which the `.` metacharacter does not match:
`\n`, `\r`, U+2028, U+2029. -/
def isLineTerm (c : Char) : Bool :=
  c = '\n' || c = '\r' || c = '\u2028' || c = '\u2029'

/-- Characters JS `String.prototype.trim` strips: the WhiteSpace and
LineTerminator productions of the ECMAScript grammar. -/
def isJsWhitespace (c : Char) : Bool :=
  c = ' ' || c = '\t' || c = '\n' || c = '\r' || c = '\x0b' || c = '\x0c' ||
  c = '\u00a0' || c = '\u1680' || ('\u2000' ≤ c && c ≤ '\u200a') ||
  c = '\u2028' || c = '\u2029' || c = '\u202f' || c = '\u205f' ||
  c = '\u3000' || c = '\ufeff'

/-- JS `url.trim()`. -/
def jsTrim (s : String) : String :=
  String.mk (((s.data.dropWhile isJsWhitespace).reverse.dropWhile isJsWhitespace).reverse)

/-- One attempt of group 1 of the regex
`^.*(youtu.be\/|v\/|u\/\w\/|embed\/|watch\?v=|&v=)([^#&?]*).*` at the head
of `l`: if one of the six alternatives matches here, return the suffix
after it (the alternatives begin with pairwise distinct characters
`y v u e w &`, so at most one can match at a given position; the middle
`.` of `youtu.be\/` is the metacharacter, matching any non-line-terminator). -/
def matchAlt (l : List Char) : Option (List Char) :=
  match l with
  | 'y' :: 'o' :: 'u' :: 't' :: 'u' :: c :: 'b' :: 'e' :: '/' :: rest =>
      if isLineTerm c then none else some rest
  | 'v' :: '/' :: rest => some rest
  | 'u' :: '/' :: c :: '/' :: rest => if isWordChar c then some rest else none
  | 'e' :: 'm' :: 'b' :: 'e' :: 'd' :: '/' :: rest => some rest
  | 'w' :: 'a' :: 't' :: 'c' :: 'h' :: '?' :: 'v' :: '=' :: rest => some rest
  | '&' :: 'v' :: '=' :: rest => some rest
  | _ => none

/-- The position at which group 1 matches.  The regex is anchored with `^`
and begins with a greedy `.*`, so the engine commits to the rightmost
position at which an alternative matches, among the positions reachable by
`.*` (those with no line terminator strictly before them).  Returns the
suffix after the matched alternative. -/
def scanMarker : List Char → Option (List Char)
  | [] => none
  | c :: rest =>
      if isLineTerm c then matchAlt (c :: rest)
      else
        match scanMarker rest with
        | some r => some r
        | none => matchAlt (c :: rest)

/-- `getYoutubeVideoId` of `page.tsx`: match
`^.*(youtu.be\/|v\/|u\/\w\/|embed\/|watch\?v=|&v=)([^#&?]*).*` and return
group 2 exactly when it has length 11; empty input short-circuits to
`null` via the `!url` guard. -/
def getYoutubeVideoId (url : String) : Option String :=
  if url = "" then none
  else
    match scanMarker url.data with
    | none => none
    | some rest =>
        let g2 := rest.takeWhile (fun c => !(c = '#' || c = '&' || c = '?'))
        if g2.length = 11 then some (String.mk g2) else none

/-- `DetectResult` of `page.tsx`: the parsed body of a successful
detection call. -/
structure DetectResult where
  triggered : Bool
  explanation : String
  latency_ms : Int
  deriving DecidableEq, Repr

/-- The `aiStatus` union type `"running" | "warning" | "alert"`. -/
inductive AiStatus where
  | running
  | warning
  | alert
  deriving DecidableEq, Repr

/-- The React state of `CommandCenterPage` that the Poller reads and
writes. -/
structure AppState where
  aiStatus : AiStatus
  activeAlerts : Int
  youtubeUrl : String
  videoId : Option String
  errorTip : String
  detectResult : Option DetectResult
  detectLoading : Bool
  deriving DecidableEq, Repr

/-- The module-level configuration constants read from `.env.local`
(`TRIO_API_URL`, `TRIO_API_KEY`, `DETECT_PROMPT`); an absent variable is
the empty string. -/
structure Config where
  apiUrl : String
  apiKey : String
  detectPrompt : String
  deriving DecidableEq, Repr

/-- The HTTP request `handleDetect` issues:
`POST apiUrl` with `Authorization: Bearer apiKey` and JSON body
`{stream_url, condition}`. -/
structure Request where
  url : String
  bearer : String
  stream_url : String
  condition : String
  deriving DecidableEq, Repr

/-- Outcome of the `fetch` + `response.json()` round trip inside the
`try` block of `handleDetect`:
`ok r` — `response.ok` with parsed body `r`;
`notOk m` — HTTP not-ok, with `m = result.error?.message` when that
field is present (a JS string, possibly empty);
`throwErr m` — `fetch`/`json` threw an `Error` with message `m`
(transport failure or malformed response body);
`throwOther` — something not an `instanceof Error` was thrown. -/
inductive FetchOutcome where
  | ok (r : DetectResult)
  | notOk (m : Option String)
  | throwErr (m : String)
  | throwOther
  deriving DecidableEq, Repr

/-- True on the branches where the call failed. -/
def FetchOutcome.isFailure : FetchOutcome → Bool
  | .ok _ => false
  | _ => true

/-- The message of the `Error` thrown on the HTTP not-ok branch:
`result.error?.message || "Trio API call failed"` (JS `||`, so an empty
string also falls back). -/
def notOkMessage (m : Option String) : String :=
  match m with
  | some msg => if msg = "" then "Trio API call failed" else msg
  | none => "Trio API call failed"

/-- The state update performed once the response (or exception) of the
detection call is in hand: the body of the `try`/`catch`/`finally` after
`await`.  On `ok`: store the result and, when `triggered`, force alert
status and increment the counter.  On failure: set `errorTip` from the
thrown `Error` (or the fixed fallback).  `finally` clears
`detectLoading`. -/
def applyFetchOutcome (o : FetchOutcome) (s : AppState) : AppState :=
  match o with
  | .ok r =>
      let s1 := { s with detectResult := some r }
      let s2 := if r.triggered
                then { s1 with aiStatus := .alert, activeAlerts := s1.activeAlerts + 1 }
                else s1
      { s2 with detectLoading := false }
  | .notOk m => { s with errorTip := notOkMessage m, detectLoading := false }
  | .throwErr m => { s with errorTip := m, detectLoading := false }
  | .throwOther =>
      { s with errorTip := "Detection request failed, please try again",
               detectLoading := false }

/-- `handleDetect` of `page.tsx`.  `o` is the network outcome the one
`fetch` would produce; the second component is the request actually
issued (`none` when a guard returned early, so no network call was
made).  Guard 1: `!trimedUrl || !getYoutubeVideoId(trimedUrl)`.
Guard 2: `!TRIO_API_URL || !TRIO_API_KEY`. -/
def handleDetect (cfg : Config) (o : FetchOutcome) (s : AppState) :
    AppState × Option Request :=
  let trimedUrl := jsTrim s.youtubeUrl
  if trimedUrl == "" || (getYoutubeVideoId trimedUrl).isNone then
    ({ s with errorTip := "Please load a valid YouTube video before running detection" },
     none)
  else if cfg.apiUrl == "" || cfg.apiKey == "" then
    ({ s with errorTip := "Invalid environment configuration. Check .env.local file and restart the project" },
     none)
  else
    let s1 := { s with detectLoading := true, errorTip := "" }
    let req : Request :=
      { url := cfg.apiUrl, bearer := cfg.apiKey,
        stream_url := trimedUrl, condition := cfg.detectPrompt }
    (applyFetchOutcome o s1, some req)

/-- `loadVideo` of `page.tsx`: clear `errorTip` and `detectResult`, then
extract a video id from the trimmed URL input; on failure set the error
tip and clear `videoId`, on success set `videoId`.  It issues no network
request (its return type carries none). -/
def loadVideo (s : AppState) : AppState :=
  let s1 := { s with errorTip := "", detectResult := none }
  match getYoutubeVideoId (jsTrim s1.youtubeUrl) with
  | none =>
      { s1 with errorTip := "Invalid link, please enter a valid YouTube video URL",
                videoId := none }
  | some vid => { s1 with videoId := some vid }

/-- `triggerMockAlert` of `page.tsx`. -/
def triggerMockAlert (s : AppState) : AppState :=
  { s with aiStatus := .alert, activeAlerts := 1 }

/-- `resetStatus` of `page.tsx`. -/
def resetStatus (s : AppState) : AppState :=
  { s with aiStatus := .running, activeAlerts := 0, detectResult := none }

/-- The initial React state: `useState` initialisers of
`CommandCenterPage`. -/
def initialState : AppState :=
  { aiStatus := .running, activeAlerts := 0, youtubeUrl := "",
    videoId := none, errorTip := "", detectResult := none,
    detectLoading := false }

/-- The states reachable from the initial render by the user-visible
operations: typing in the URL input (`setYoutubeUrl`), loading a video,
a detection call completing with any network outcome (manual or
poller-driven), the simulate-alert action, and the reset action. -/
inductive Reachable (cfg : Config) : AppState → Prop where
  | init : Reachable cfg initialState
  | setUrl {s : AppState} (u : String) :
      Reachable cfg s → Reachable cfg { s with youtubeUrl := u }
  | load {s : AppState} : Reachable cfg s → Reachable cfg (loadVideo s)
  | detect {s : AppState} (o : FetchOutcome) :
      Reachable cfg s → Reachable cfg (handleDetect cfg o s).1
  | mock {s : AppState} : Reachable cfg s → Reachable cfg (triggerMockAlert s)
  | reset {s : AppState} : Reachable cfg s → Reachable cfg (resetStatus s)

/-- A live `setInterval` timer: its JS handle and its period in
milliseconds. -/
structure IntervalTimer where
  id : Nat
  periodMs : Nat
  deriving DecidableEq, Repr

/-- The timer-related state of the polling `useEffect`: the set of live
interval timers (in creation order), the `pollTimerRef.current` ref, and
a source of fresh timer handles. -/
structure PollState where
  timers : List IntervalTimer
  pollTimerRef : Option Nat
  nextId : Nat
  deriving DecidableEq, Repr

/-- JS `clearInterval i`: removes the timer with handle `i`; a no-op when
no such timer is live (clearing twice is harmless in JS). -/
def clearIntervalById (i : Nat) (ts : List IntervalTimer) : List IntervalTimer :=
  ts.filter (fun t => t.id ≠ i)

/-- The cleanup function returned by the polling `useEffect`, run by React
before the next effect run and on unmount:
`if (pollTimerRef.current) clearInterval(pollTimerRef.current)`.
Note it does not null the ref. -/
def effectCleanup (p : PollState) : PollState :=
  match p.pollTimerRef with
  | some i => { p with timers := clearIntervalById i p.timers }
  | none => p

/-- The guard of the polling `useEffect`:
`videoId && youtubeUrl.trim() && TRIO_API_URL && TRIO_API_KEY`. -/
def pollGuard (cfg : Config) (s : AppState) : Bool :=
  s.videoId.isSome && jsTrim s.youtubeUrl != "" && cfg.apiUrl != "" && cfg.apiKey != ""

/-- The body of the polling `useEffect`.  When the guard holds: fire an
immediate `handleDetect` (the returned flag) and store a fresh 60 000 ms
interval timer in `pollTimerRef`.  Otherwise: if the ref holds a handle,
clear that interval and null the ref. -/
def effectBody (active : Bool) (p : PollState) : PollState × Bool :=
  if active then
    ({ timers := p.timers ++ [⟨p.nextId, 60000⟩],
       pollTimerRef := some p.nextId,
       nextId := p.nextId + 1 }, true)
  else
    match p.pollTimerRef with
    | some i =>
        ({ p with timers := clearIntervalById i p.timers, pollTimerRef := none }, false)
    | none => (p, false)

/-- One React effect cycle for a dependency change (`videoId` or
`youtubeUrl`): the previous run's cleanup, then the body.  On the very
first (mount) run the cleanup is a no-op since the ref is still null. -/
def effectCycle (active : Bool) (p : PollState) : PollState × Bool :=
  effectBody active (effectCleanup p)

/-- Timer state before the first effect run: `useRef(null)`, no timers. -/
def initialPollState : PollState :=
  { timers := [], pollTimerRef := none, nextId := 0 }

/-- Run the effect cycle for a whole sequence of dependency changes, each
element giving the value of the effect guard at that change. -/
def runCycles (acts : List Bool) (p : PollState) : PollState :=
  acts.foldl (fun q a => (effectCycle a q).1) p

/-- Timer-state invariant: either no interval timer is live, or exactly
one is, it is the one held by `pollTimerRef`, and its period is 60 s. -/
def PollInv (p : PollState) : Prop :=
  p.timers = [] ∨
  ∃ t : IntervalTimer, p.timers = [t] ∧ p.pollTimerRef = some t.id ∧ t.periodMs = 60000

/-- The inline error message derivation of the `catch` block of
`handleDetect`, per network outcome: the thrown `Error`'s message — which
the HTTP not-ok branch built as `result.error?.message || "Trio API call
failed"` — or the fixed fallback for non-`Error` throwables.  (`ok` never
reaches the `catch`; its value here is irrelevant.) -/
def failureTip : FetchOutcome → String
  | .ok _ => ""
  | .notOk m => notOkMessage m
  | .throwErr m => m
  | .throwOther => "Detection request failed, please try again"

/-- A sample fully-populated configuration. -/
def sampleConfig : Config :=
  { apiUrl := "https://api.trio.example/detect", apiKey := "secret-key",
    detectPrompt := "Is there an animated character visible?" }

/-- A state in which the user has typed a valid video URL into the input
but has not pressed Load, so no Stream Reference (`videoId`) is set. -/
def sampleUrlState : AppState :=
  { initialState with youtubeUrl := "https://www.youtube.com/watch?v=XsOU8JnEpNM" }

/-- A sample stored detection result. -/
def sampleResult : DetectResult :=
  { triggered := false, explanation := "all clear", latency_ms := 42 }

/-- A state holding a stored detection result while the URL input contains
an invalid link. -/
def loadedBadUrlState : AppState :=
  { initialState with youtubeUrl := "not a url", detectResult := some sampleResult,
                      aiStatus := .alert, activeAlerts := 2 }

/-! ## Helper lemmas -/

/-- `loadVideo` never touches the alert counter. -/
theorem loadVideo_activeAlerts (s : AppState) :
    (loadVideo s).activeAlerts = s.activeAlerts := by
  simp only [loadVideo]
  split <;> rfl

/-- `loadVideo` never touches the monitoring status. -/
theorem loadVideo_aiStatus (s : AppState) :
    (loadVideo s).aiStatus = s.aiStatus := by
  simp only [loadVideo]
  split <;> rfl

/-- `handleDetect` either leaves the alert counter unchanged or increments
it by one (the latter exactly on a triggered HTTP-ok response). -/
theorem handleDetect_activeAlerts (cfg : Config) (o : FetchOutcome) (s : AppState) :
    (handleDetect cfg o s).1.activeAlerts = s.activeAlerts ∨
    (handleDetect cfg o s).1.activeAlerts = s.activeAlerts + 1 := by
  simp only [handleDetect]
  split_ifs with h1 h2
  · exact Or.inl rfl
  · exact Or.inl rfl
  · cases o with
    | ok r =>
        cases hr : r.triggered
        · exact Or.inl (by simp [applyFetchOutcome, hr])
        · exact Or.inr (by simp [applyFetchOutcome, hr])
    | notOk m => exact Or.inl rfl
    | throwErr m => exact Or.inl rfl
    | throwOther => exact Or.inl rfl

/-- `handleDetect` either leaves the monitoring status unchanged or sets
it to `alert`. -/
theorem handleDetect_aiStatus (cfg : Config) (o : FetchOutcome) (s : AppState) :
    (handleDetect cfg o s).1.aiStatus = s.aiStatus ∨
    (handleDetect cfg o s).1.aiStatus = .alert := by
  simp only [handleDetect]
  split_ifs with h1 h2
  · exact Or.inl rfl
  · exact Or.inl rfl
  · cases o with
    | ok r =>
        cases hr : r.triggered
        · exact Or.inl (by simp [applyFetchOutcome, hr])
        · exact Or.inr (by simp [applyFetchOutcome, hr])
    | notOk m => exact Or.inl rfl
    | throwErr m => exact Or.inl rfl
    | throwOther => exact Or.inl rfl

/-- A token returned by the extraction always has exactly 11 characters:
the regex accepts group 2 only at that length. -/
theorem getYoutubeVideoId_some_length {url t : String}
    (h : getYoutubeVideoId url = some t) : t.length = 11 := by
  simp only [getYoutubeVideoId] at h
  split at h
  · simp at h
  · split at h
    · simp at h
    · split at h
      · rename_i hlen
        cases h
        exact hlen
      · simp at h

/-! ## Claims -/

/-- **C1.** For every `detect()` call that completes with an HTTP-ok
response (the guards passed, so a request was issued, and the outcome is
`ok r`): the parsed result is stored; if `r.triggered` then the status is
forced to `alert` and the alert counter is incremented by exactly one;
if not, the counter and the status are left unchanged. -/
theorem detect_ok_alert_semantics (cfg : Config) (s : AppState) (r : DetectResult)
    (hcall : (handleDetect cfg (.ok r) s).2.isSome = true) :
    (handleDetect cfg (.ok r) s).1.detectResult = some r ∧
    (r.triggered = true →
      (handleDetect cfg (.ok r) s).1.aiStatus = .alert ∧
      (handleDetect cfg (.ok r) s).1.activeAlerts = s.activeAlerts + 1) ∧
    (r.triggered = false →
      (handleDetect cfg (.ok r) s).1.activeAlerts = s.activeAlerts ∧
      (handleDetect cfg (.ok r) s).1.aiStatus = s.aiStatus) := by
  simp only [handleDetect] at hcall ⊢
  split_ifs at hcall ⊢ with h1 h2
  · simp at hcall
  · simp at hcall
  · refine ⟨?_, ?_, ?_⟩
    · cases hr : r.triggered <;> simp [applyFetchOutcome, hr]
    · intro hr
      exact ⟨by simp [applyFetchOutcome, hr], by simp [applyFetchOutcome, hr]⟩
    · intro hr
      exact ⟨by simp [applyFetchOutcome, hr], by simp [applyFetchOutcome, hr]⟩

/-- **C1 witness.** A concrete triggered HTTP-ok detection from a loaded,
configured state increments the counter from 0 to 1 and forces alert. -/
theorem detect_ok_alert_semantics_witness :
    (handleDetect sampleConfig
        (.ok { triggered := true, explanation := "intruder", latency_ms := 10 })
        sampleUrlState).1.aiStatus = .alert ∧
    (handleDetect sampleConfig
        (.ok { triggered := true, explanation := "intruder", latency_ms := 10 })
        sampleUrlState).1.activeAlerts = sampleUrlState.activeAlerts + 1 :=
  (detect_ok_alert_semantics sampleConfig sampleUrlState
      { triggered := true, explanation := "intruder", latency_ms := 10 }
      (by decide)).2.1 rfl

/-- **C7.** `triggerMockAlert` unconditionally sets status `alert` and
counter 1; `resetStatus` unconditionally sets status `running`, counter 0
and clears the stored result; their composition therefore always lands in
`running`, 0, no stored result.  (Both are pure state updates; neither
returns a `Request`, mirroring the absence of any `fetch` in their
source.) -/
theorem mock_and_reset_semantics (s : AppState) :
    ((triggerMockAlert s).aiStatus = .alert ∧ (triggerMockAlert s).activeAlerts = 1) ∧
    ((resetStatus s).aiStatus = .running ∧ (resetStatus s).activeAlerts = 0 ∧
      (resetStatus s).detectResult = none) ∧
    ((resetStatus (triggerMockAlert s)).aiStatus = .running ∧
      (resetStatus (triggerMockAlert s)).activeAlerts = 0 ∧
      (resetStatus (triggerMockAlert s)).detectResult = none) :=
  ⟨⟨rfl, rfl⟩, ⟨rfl, rfl, rfl⟩, ⟨rfl, rfl, rfl⟩⟩

/-- **C2 counterexample.** In a state whose Stream Reference (`videoId`)
is absent but whose URL input holds a parseable video URL, `handleDetect`
with a fully populated configuration does issue a network request: the
guard reads the URL input, not the Stream Reference.  This falsifies
"Stream Reference absent implies no network call". -/
theorem detect_calls_network_without_reference :
    sampleUrlState.videoId = none ∧
    sampleConfig.apiUrl ≠ "" ∧ sampleConfig.apiKey ≠ "" ∧
    (handleDetect sampleConfig .throwOther sampleUrlState).2.isSome = true := by
  decide

/-- **C2 (amended).** `handleDetect`'s early-exit guards: if the trimmed
URL input is empty or yields no video id, it sets the fixed load-a-video
message, issues no request and leaves the counter unchanged; if the URL
input is fine but the configured endpoint or credential is empty, it sets
the fixed configuration-error message, issues no request and leaves the
counter unchanged. -/
theorem detect_guard_blocks_network (cfg : Config) (s : AppState) (o : FetchOutcome) :
    ((jsTrim s.youtubeUrl = "" ∨ getYoutubeVideoId (jsTrim s.youtubeUrl) = none) →
      (handleDetect cfg o s).2 = none ∧
      (handleDetect cfg o s).1.errorTip =
        "Please load a valid YouTube video before running detection" ∧
      (handleDetect cfg o s).1.activeAlerts = s.activeAlerts) ∧
    (getYoutubeVideoId (jsTrim s.youtubeUrl) ≠ none →
      (cfg.apiUrl = "" ∨ cfg.apiKey = "") →
      (handleDetect cfg o s).2 = none ∧
      (handleDetect cfg o s).1.errorTip =
        "Invalid environment configuration. Check .env.local file and restart the project" ∧
      (handleDetect cfg o s).1.activeAlerts = s.activeAlerts) := by
  constructor
  · intro h
    have hg : (jsTrim s.youtubeUrl == "" || (getYoutubeVideoId (jsTrim s.youtubeUrl)).isNone) = true := by
      rcases h with h | h <;> simp [h]
    simp [handleDetect, hg]
  · intro h hc
    have hg : (jsTrim s.youtubeUrl == "" || (getYoutubeVideoId (jsTrim s.youtubeUrl)).isNone) = false := by
      have hne : jsTrim s.youtubeUrl ≠ "" := by
        intro he
        exact h (by simp [he, getYoutubeVideoId])
      cases hx : getYoutubeVideoId (jsTrim s.youtubeUrl) with
      | none => exact absurd hx h
      | some t => simp [hne, hx]
    have hg2 : (cfg.apiUrl == "" || cfg.apiKey == "") = true := by
      rcases hc with hc | hc <;> simp [hc]
    simp [handleDetect, hg, hg2]

/-- **C2 witness.** The first guard fires in the initial state (empty URL
input); the second fires with a valid URL input and an empty
configuration. -/
theorem detect_guard_blocks_network_witness :
    (handleDetect sampleConfig .throwOther initialState).2 = none ∧
    (handleDetect { apiUrl := "", apiKey := "", detectPrompt := "p" } .throwOther
        sampleUrlState).2 = none :=
  ⟨((detect_guard_blocks_network sampleConfig initialState .throwOther).1
      (Or.inl (by decide))).1,
   ((detect_guard_blocks_network { apiUrl := "", apiKey := "", detectPrompt := "p" }
        sampleUrlState .throwOther).2 (by decide) (Or.inl rfl)).1⟩

/-- **C3 counterexample.** `loadVideo` clears `detectResult`
unconditionally before validating, so a failing load does *not* leave the
stored Detection Result unchanged: from a state storing a result, loading
the invalid input `"not a url"` wipes it. -/
theorem loadVideo_failure_clears_result :
    getYoutubeVideoId (jsTrim loadedBadUrlState.youtubeUrl) = none ∧
    loadedBadUrlState.detectResult = some sampleResult ∧
    (loadVideo loadedBadUrlState).detectResult ≠ loadedBadUrlState.detectResult := by
  decide

/-- **C3 (amended).** On a failing load, `loadVideo` clears the Stream
Reference, sets the fixed invalid-link message, and leaves Monitoring
Status, Active Alert Count, the URL input and the loading flag unchanged —
but the stored Detection Result (and any prior error tip) is cleared
unconditionally rather than left unchanged.  `loadVideo` issues no network
request (its source contains no `fetch`, so its embedding returns no
`Request`). -/
theorem loadVideo_failure_frame (s : AppState)
    (h : getYoutubeVideoId (jsTrim s.youtubeUrl) = none) :
    (loadVideo s).videoId = none ∧
    (loadVideo s).errorTip = "Invalid link, please enter a valid YouTube video URL" ∧
    (loadVideo s).detectResult = none ∧
    (loadVideo s).aiStatus = s.aiStatus ∧
    (loadVideo s).activeAlerts = s.activeAlerts ∧
    (loadVideo s).youtubeUrl = s.youtubeUrl ∧
    (loadVideo s).detectLoading = s.detectLoading := by
  simp [loadVideo, h]

/-- **C3 witness.** The amended frame at the concrete failing state. -/
theorem loadVideo_failure_frame_witness :
    (loadVideo loadedBadUrlState).videoId = none ∧
    (loadVideo loadedBadUrlState).activeAlerts = loadedBadUrlState.activeAlerts :=
  ⟨(loadVideo_failure_frame loadedBadUrlState (by decide)).1,
   (loadVideo_failure_frame loadedBadUrlState (by decide)).2.2.2.2.1⟩

/-- **C4.** Every input whose trimmed form fails the video-id extraction
is rejected by `loadVideo` without setting a Stream Reference; in
particular the empty string and `"not a url"` fail the extraction. -/
theorem loadVideo_rejects_nonmatching (s : AppState)
    (h : getYoutubeVideoId (jsTrim s.youtubeUrl) = none) :
    ((loadVideo s).videoId = none ∧
      (loadVideo s).errorTip = "Invalid link, please enter a valid YouTube video URL") ∧
    getYoutubeVideoId "" = none ∧
    getYoutubeVideoId "not a url" = none := by
  refine ⟨?_, by decide, by decide⟩
  simp [loadVideo, h]

/-- **C4 witness.** Rejection at the concrete input `"not a url"`. -/
theorem loadVideo_rejects_nonmatching_witness :
    (loadVideo { initialState with youtubeUrl := "not a url" }).videoId = none :=
  (loadVideo_rejects_nonmatching { initialState with youtubeUrl := "not a url" }
      (by decide)).1.1

/-- **C5.** Whenever the extraction yields a token, `loadVideo` sets the
Stream Reference to exactly that token, and the token has exactly 11
characters; concretely, `"https://www.youtube.com/watch?v=XsOU8JnEpNM"`
yields `"XsOU8JnEpNM"`. -/
theorem loadVideo_extracts_token (s : AppState) (t : String)
    (h : getYoutubeVideoId (jsTrim s.youtubeUrl) = some t) :
    ((loadVideo s).videoId = some t ∧ t.length = 11) ∧
    getYoutubeVideoId "https://www.youtube.com/watch?v=XsOU8JnEpNM" =
      some "XsOU8JnEpNM" :=
  ⟨⟨by simp only [loadVideo, h], getYoutubeVideoId_some_length h⟩, by decide⟩

/-- **C5 witness.** Loading the concrete scenario URL sets the Stream
Reference to `"XsOU8JnEpNM"`. -/
theorem loadVideo_extracts_token_witness :
    (loadVideo sampleUrlState).videoId = some "XsOU8JnEpNM" :=
  (loadVideo_extracts_token sampleUrlState "XsOU8JnEpNM" (by decide)).1.1

/-- **C6.** For every `detect()` call whose guards passed (a request was
issued) and whose outcome is a failure — HTTP not-ok, a thrown transport
or parse `Error`, or a non-`Error` throwable — the previously stored
Detection Result, the status and the counter are left unchanged, and
`errorTip` is set to the message the `catch` block derives: the payload's
`error.message` with the fixed `"Trio API call failed"` fallback on the
not-ok branch, the `Error`'s own message, or the fixed
`"Detection request failed, please try again"` text. -/
theorem detect_failure_preserves_result (cfg : Config) (s : AppState) (o : FetchOutcome)
    (hcall : (handleDetect cfg o s).2.isSome = true)
    (hfail : o.isFailure = true) :
    (handleDetect cfg o s).1.detectResult = s.detectResult ∧
    (handleDetect cfg o s).1.aiStatus = s.aiStatus ∧
    (handleDetect cfg o s).1.activeAlerts = s.activeAlerts ∧
    (handleDetect cfg o s).1.errorTip = failureTip o := by
  simp only [handleDetect] at hcall ⊢
  split_ifs at hcall ⊢ with h1 h2
  · simp at hcall
  · simp at hcall
  · cases o with
    | ok r => simp [FetchOutcome.isFailure] at hfail
    | notOk m => simp [applyFetchOutcome, failureTip]
    | throwErr m => simp [applyFetchOutcome, failureTip]
    | throwOther => simp [applyFetchOutcome, failureTip]

/-- **C6 witness.** A concrete HTTP not-ok failure with payload message
`"boom"` surfaces `"boom"` and keeps the stored result. -/
theorem detect_failure_preserves_result_witness :
    (handleDetect sampleConfig (.notOk (some "boom")) sampleUrlState).1.detectResult
        = sampleUrlState.detectResult ∧
    (handleDetect sampleConfig (.notOk (some "boom")) sampleUrlState).1.errorTip
        = failureTip (.notOk (some "boom")) :=
  ⟨(detect_failure_preserves_result sampleConfig sampleUrlState (.notOk (some "boom"))
      (by decide) rfl).1,
   (detect_failure_preserves_result sampleConfig sampleUrlState (.notOk (some "boom"))
      (by decide) rfl).2.2.2⟩

/-- The timer invariant holds before the first effect run. -/
theorem pollInv_initial : PollInv initialPollState := Or.inl rfl

/-- Under the invariant, the effect cleanup leaves no live timer. -/
theorem effectCleanup_timers {p : PollState} (hp : PollInv p) :
    (effectCleanup p).timers = [] := by
  rcases hp with h | ⟨t, ht, hr, _⟩
  · cases href : p.pollTimerRef <;>
      simp [effectCleanup, href, h, clearIntervalById]
  · simp [effectCleanup, hr, ht, clearIntervalById]

/-- The cleanup changes no field but `timers`. -/
theorem effectCleanup_ref (p : PollState) :
    (effectCleanup p).pollTimerRef = p.pollTimerRef ∧
    (effectCleanup p).nextId = p.nextId := by
  cases href : p.pollTimerRef <;> simp [effectCleanup, href]

/-- One effect cycle preserves the timer invariant. -/
theorem pollInv_effectCycle (a : Bool) {p : PollState} (hp : PollInv p) :
    PollInv (effectCycle a p).1 := by
  have hclean : (effectCleanup p).timers = [] := effectCleanup_timers hp
  unfold effectCycle
  cases a with
  | false =>
      cases href : (effectCleanup p).pollTimerRef with
      | some i => exact Or.inl (by simp [effectBody, href, hclean, clearIntervalById])
      | none => exact Or.inl (by simp [effectBody, href, hclean])
  | true =>
      exact Or.inr ⟨⟨(effectCleanup p).nextId, 60000⟩,
        by simp [effectBody, hclean], by simp [effectBody], rfl⟩

/-- The timer invariant holds after any sequence of effect cycles. -/
theorem pollInv_runCycles (acts : List Bool) {p : PollState} (hp : PollInv p) :
    PollInv (runCycles acts p) := by
  induction acts generalizing p with
  | nil => exact hp
  | cons a rest ih =>
      simp only [runCycles, List.foldl_cons]
      exact ih (pollInv_effectCycle a hp)

/-- **C8.** Timer discipline of the polling effect: across any sequence
of dependency changes at most one interval timer is ever live; each cycle
cancels the previously registered timer during cleanup before its body
runs; the immediate detection call fires exactly when the guard
(`videoId` set, URL input non-blank, endpoint and credential configured)
holds; and when it holds the cycle leaves exactly one fresh 60 000 ms
interval timer. -/
theorem poller_timer_discipline :
    (∀ acts : List Bool, (runCycles acts initialPollState).timers.length ≤ 1) ∧
    (∀ p : PollState, PollInv p → (effectCleanup p).timers = []) ∧
    (∀ (cfg : Config) (s : AppState) (p : PollState),
        (effectCycle (pollGuard cfg s) p).2 = pollGuard cfg s) ∧
    (∀ (cfg : Config) (s : AppState) (p : PollState), PollInv p →
        pollGuard cfg s = true →
        ∃ i : Nat, (effectCycle (pollGuard cfg s) p).1.timers = [⟨i, 60000⟩]) := by
  refine ⟨?_, fun p hp => effectCleanup_timers hp, ?_, ?_⟩
  · intro acts
    rcases pollInv_runCycles acts pollInv_initial with h | ⟨t, ht, _, _⟩
    · simp [h]
    · simp [ht]
  · intro cfg s p
    cases hg : pollGuard cfg s with
    | false =>
        cases href : (effectCleanup p).pollTimerRef with
        | some i => simp [effectCycle, effectBody, href]
        | none => simp [effectCycle, effectBody, href]
    | true => simp [effectCycle, effectBody]
  · intro cfg s p hp hg
    have hclean : (effectCleanup p).timers = [] := effectCleanup_timers hp
    exact ⟨(effectCleanup p).nextId, by simp [effectCycle, effectBody, hg, hclean]⟩

/-- **C8 witness.** Four consecutive dependency changes (three of them
with a valid, configured state) leave at most one live timer, and the
initial cleanup clears nothing. -/
theorem poller_timer_discipline_witness :
    (runCycles [true, true, false, true] initialPollState).timers.length ≤ 1 ∧
    (effectCleanup initialPollState).timers = [] :=
  ⟨poller_timer_discipline.1 [true, true, false, true],
   poller_timer_discipline.2.1 initialPollState (Or.inl rfl)⟩

/-- **C9.** The Active Alert Count starts at 0 and is non-negative in
every state reachable by typing, loading, detection calls (with any
network outcome), simulate-alert and reset: no operation ever takes it
below 0. -/
theorem activeAlerts_nonneg :
    initialState.activeAlerts = 0 ∧
    ∀ (cfg : Config) (s : AppState), Reachable cfg s → 0 ≤ s.activeAlerts := by
  refine ⟨rfl, fun cfg s h => ?_⟩
  induction h with
  | init => exact le_refl 0
  | setUrl u _ ih => exact ih
  | load _ ih =>
      rw [loadVideo_activeAlerts]
      exact ih
  | detect o _ ih =>
      rcases handleDetect_activeAlerts cfg o _ with h' | h'
      · rw [h']; exact ih
      · rw [h']; omega
  | mock _ _ => exact zero_le_one
  | reset _ _ => exact le_refl 0

/-- **C9 witness.** The invariant instantiated at the initial state. -/
theorem activeAlerts_nonneg_witness : (0 : Int) ≤ initialState.activeAlerts :=
  activeAlerts_nonneg.2 { apiUrl := "", apiKey := "", detectPrompt := "" }
    initialState Reachable.init

/-- **C10.** Although `aiStatus` declares the value `warning`, no
reachable state carries it: every reachable status is `running` or
`alert` (operations only ever write `running` or `alert`). -/
theorem warning_unreachable :
    ∀ (cfg : Config) (s : AppState), Reachable cfg s →
      (s.aiStatus = .running ∨ s.aiStatus = .alert) ∧ s.aiStatus ≠ .warning := by
  intro cfg s h
  have hmain : s.aiStatus = .running ∨ s.aiStatus = .alert := by
    induction h with
    | init => exact Or.inl rfl
    | setUrl u _ ih => exact ih
    | load _ ih =>
        rw [loadVideo_aiStatus]
        exact ih
    | detect o _ ih =>
        rcases handleDetect_aiStatus cfg o _ with h' | h'
        · rw [h']; exact ih
        · exact Or.inr h'
    | mock _ _ => exact Or.inr rfl
    | reset _ _ => exact Or.inl rfl
  refine ⟨hmain, ?_⟩
  rcases hmain with h' | h' <;> simp [h']

/-- **C10 witness.** The invariant instantiated at the initial state. -/
theorem warning_unreachable_witness : initialState.aiStatus ≠ .warning :=
  (warning_unreachable { apiUrl := "", apiKey := "", detectPrompt := "" }
    initialState Reachable.init).2

end TerraTrace
